import Mathlib

/-!
# Verification of the smartgliding-ogn-backend flight-event core

Shallow embedding of the event-detection core of the repository in Lean 4:

* `services/flight_events.py` — per-aircraft flight state machine
  (`process_flight_events`), launch-type classification
  (`detect_launch_type`), nearest-airfield geotagging
  (`find_nearest_airfield`) and event filtering/storage (`log_event`);
* `services/winch_detector.py` — winch launch tracking
  (`start_winch_tracking`, `update_winch_tracking`);
* `services/adsb_client.py` — the presence-gated secondary-source poller
  (`AdsbClient.fetch_and_process_data`, `clear_aircraft_data`).

Numbers (speeds in km/h, altitudes in m, times in seconds) are modelled as
rationals; Python `datetime` values are modelled as rational timestamps
passed explicitly to each step function (the source reads
`datetime.now()`).  Python values that may be `None` are modelled as
`Option`.  The Haversine great-circle distance
(`services/flight_events.py:calculate_distance`) is transcendental and is
therefore kept abstract: every definition that needs it takes a distance
function `DistFn` as a parameter, exactly at the call sites where the
source invokes `calculate_distance`.
-/

namespace SG

/-- Distance function standing for `calculate_distance(lat1, lon1, lat2, lon2)`
(Haversine formula, km).  The source applies it to coordinates that may be
`None` in the surrounding dictionaries, hence the `Option` arguments. -/
def DistFn : Type := Option ℚ → Option ℚ → Option ℚ → Option ℚ → ℚ

/-! ## Constants (`services/flight_events.py`, lines 25-31) -/

def TAKEOFF_SPEED_THRESHOLD : ℚ := 30
def TAKEOFF_ALTITUDE_THRESHOLD : ℚ := 20
def LANDING_SPEED_THRESHOLD : ℚ := 40
def LANDING_ALTITUDE_THRESHOLD : ℚ := 100
def TAKEOFF_TOW_DISTANCE_THRESHOLD : ℚ := 3/10
def TOW_START_TIME_WINDOW : ℚ := 5
def EVENT_COOLDOWN : ℚ := 10

/-- The tow-plane model roster (`TOW_PLANE_MODELS`, lines 39-42). -/
def TOW_PLANE_MODELS : List String :=
  ["PA-25", "PAWNEE", "RALLYE", "DR-400", "ROBIN", "MAULE", "CUB", "WILGA",
   "HUSKY", "SUPER CUB", "SCOUT", "CITABRIA", "CESSNA", "PIPER"]

/-! ## Data model -/

/-- One normalized position sample, i.e. the fields of the `aircraft_data`
dictionary read by `process_flight_events` / `detect_launch_type` /
`log_event`.  Each field holds the result of the corresponding
`aircraft_data.get(...)` call (`none` models Python `None`; note that
`aircraft_data.get('ground_speed', 0)` yields `0`, i.e. `some 0`, when the
key is absent). -/
structure Sample where
  ground_speed : Option ℚ
  altitude : Option ℚ
  latitude : Option ℚ
  longitude : Option ℚ
  aircraft_type : Option String
  aircraft_model : Option String
  registration : Option String
deriving DecidableEq, Repr

/-- The `last_position` dictionary stored by `process_flight_events`
(lines 345-350 / 367-372): altitude and ground speed are stored only after
the `None` guard at line 333, hence are plain rationals. -/
structure Position where
  latitude : Option ℚ
  longitude : Option ℚ
  altitude : ℚ
  ground_speed : ℚ
deriving DecidableEq, Repr

/-- One entry of `aircraft_flight_states` (lines 45-53). -/
structure FlightState where
  is_airborne : Option Bool
  last_position : Option Position
  last_update : Option ℚ
  last_event : Option String
  takeoff_time : Option ℚ
  start_type : Option String
  last_event_time : Option ℚ
deriving DecidableEq, Repr

/-- The defaultdict initializer for `aircraft_flight_states`: every field
`None`. -/
def initFlightState : FlightState :=
  { is_airborne := none, last_position := none, last_update := none,
    last_event := none, takeoff_time := none, start_type := none,
    last_event_time := none }

/-- One `(aircraft_id, time, position, aircraft_type, model)` tuple of the
global `recent_takeoffs` list (line 56, appended at lines 389-395). -/
structure TakeoffRecord where
  aircraft_id : String
  time : ℚ
  latitude : Option ℚ
  longitude : Option ℚ
  aircraft_type : Option String
  aircraft_model : Option String
deriving DecidableEq, Repr

inductive EventKind
  | takeoff
  | landing
deriving DecidableEq, Repr

/-- A detected takeoff/landing, at the point where `process_flight_events`
hands it to `log_event` (detection level, before homefield filtering). -/
structure DetectedEvent where
  kind : EventKind
  start_type : Option String
  paired_with : Option String
deriving DecidableEq, Repr

/-- Result of `detect_launch_type`: the cleaned global `recent_takeoffs`
list plus the returned `(start_type, paired_with)` pair. -/
structure LaunchResult where
  takeoffs : List TakeoffRecord
  start_type : Option String
  paired_with : Option String
deriving DecidableEq, Repr

/-- Result of one `process_flight_events` call: the new per-aircraft state,
the new global `recent_takeoffs`, the detected event (if any) and the
Python return value. -/
structure StepResult where
  state : FlightState
  takeoffs : List TakeoffRecord
  event : Option DetectedEvent
  ret : Bool
deriving DecidableEq, Repr

/-! ## Tow plane / glider classification (`is_tow_plane`, lines 81-94) -/

/-- Python substring containment `sub in s` on character lists. -/
def charsContain (sub s : List Char) : Bool :=
  (List.range (s.length + 1)).any fun i => sub.isPrefixOf (s.drop i)

/-- Python `sub in s` for strings. -/
def strContainsSub (s sub : String) : Bool :=
  charsContain sub.data s.data

/-- `is_tow_plane(aircraft_type, aircraft_model)`: APRS type check, then a
case-insensitive roster-substring check (an empty or `None` model is falsy
and skips the roster loop). -/
def is_tow_plane (aircraft_type aircraft_model : Option String) : Bool :=
  if aircraft_type = some "Drop plane/Powered aircraft" then true
  else
    match aircraft_model with
    | none => false
    | some m =>
      if m = "" then false
      else TOW_PLANE_MODELS.any fun part => strContainsSub m.toUpper part.toUpper

/-- `aircraft_type == 'Glider' and not is_tow_plane(...)` (lines 266, 285). -/
def isGliderType (aircraft_type aircraft_model : Option String) : Bool :=
  decide (aircraft_type = some "Glider") && !(is_tow_plane aircraft_type aircraft_model)

/-! ## Launch classifier (`detect_launch_type`, lines 247-307) -/

/-- The `for other_id, other_time, other_pos, ... in recent_takeoffs` loop
(lines 270-299): first record that is not the aircraft itself, falls in the
time window, lies within `TAKEOFF_TOW_DISTANCE_THRESHOLD` and pairs
glider/tow-plane compatibly wins; all other records are skipped. -/
def scanRecentTakeoffs (dist : DistFn) (aircraft_id : String)
    (lat lon : Option ℚ) (isCurGlider isCurTow : Bool) (wstart wend : ℚ) :
    List TakeoffRecord → Option (String × String)
  | [] => none
  | r :: rest =>
    if r.aircraft_id = aircraft_id then
      scanRecentTakeoffs dist aircraft_id lat lon isCurGlider isCurTow wstart wend rest
    else if ¬ (wstart ≤ r.time ∧ r.time ≤ wend) then
      scanRecentTakeoffs dist aircraft_id lat lon isCurGlider isCurTow wstart wend rest
    else if dist lat lon r.latitude r.longitude ≤ TAKEOFF_TOW_DISTANCE_THRESHOLD then
      if isCurGlider && is_tow_plane r.aircraft_type r.aircraft_model then
        some ("tow", r.aircraft_id)
      else if isCurTow && isGliderType r.aircraft_type r.aircraft_model then
        some ("tow_plane", r.aircraft_id)
      else
        scanRecentTakeoffs dist aircraft_id lat lon isCurGlider isCurTow wstart wend rest
    else
      scanRecentTakeoffs dist aircraft_id lat lon isCurGlider isCurTow wstart wend rest

/-- `detect_launch_type(aircraft_id, aircraft_data, takeoff_time)`.
`now` stands for the `datetime.now()` read at line 252 (used to prune
records older than 30 s).  On a successful pairing or a winch default the
source also writes the label into
`aircraft_flight_states[aircraft_id]['start_type']`; the caller
(`process_flight_events`) applies that write, see below. -/
def detect_launch_type (dist : DistFn) (aircraft_id : String) (data : Sample)
    (takeoff_time now : ℚ) (takeoffs : List TakeoffRecord) : LaunchResult :=
  match scanRecentTakeoffs dist aircraft_id data.latitude data.longitude
      (isGliderType data.aircraft_type data.aircraft_model)
      (is_tow_plane data.aircraft_type data.aircraft_model)
      (takeoff_time - TOW_START_TIME_WINDOW)
      (takeoff_time + TOW_START_TIME_WINDOW)
      (takeoffs.filter fun r => decide (now - r.time < 30)) with
  | some (label, partner) =>
    ⟨takeoffs.filter fun r => decide (now - r.time < 30), some label, some partner⟩
  | none =>
    if isGliderType data.aircraft_type data.aircraft_model then
      ⟨takeoffs.filter fun r => decide (now - r.time < 30), some "winch", none⟩
    else ⟨takeoffs.filter fun r => decide (now - r.time < 30), none, none⟩

/-! ## Flight state machine (`process_flight_events`, lines 310-449) -/

/-- The cooldown gate (lines 319-324). -/
def inCooldown (state : FlightState) (now : ℚ) : Bool :=
  match state.last_event_time with
  | some t => decide (now - t < EVENT_COOLDOWN)
  | none => false

/-- `process_flight_events(aircraft_id, aircraft_data)` at time `now`,
acting on this aircraft's `state` and the global `recent_takeoffs` list.
Mirrors the source order: cooldown gate; missing-data guard; first-sample
initialization; unconditional position update; takeoff branch (with the
previous-sample OR-guard, the `recent_takeoffs` append, and the launch
classification whose label is also written into the state); landing branch
(altitude gate, `start_type` cleared). -/
def process_flight_events (dist : DistFn) (aircraft_id : String)
    (data : Sample) (now : ℚ) (state : FlightState)
    (takeoffs : List TakeoffRecord) : StepResult :=
  if inCooldown state now then ⟨state, takeoffs, none, false⟩
  else
    match data.ground_speed, data.altitude with
    | some gs, some alt =>
      let current_airborne :=
        decide (TAKEOFF_SPEED_THRESHOLD ≤ gs ∧ TAKEOFF_ALTITUDE_THRESHOLD ≤ alt)
      match state.is_airborne with
      | none =>
        -- first sample: initialize silently (lines 342-359)
        ⟨{ state with
            is_airborne := some current_airborne,
            last_position := some ⟨data.latitude, data.longitude, alt, gs⟩,
            last_update := some now },
          takeoffs, none, false⟩
      | some prev_airborne =>
        -- the source reads prev values from `state['last_position']`, which
        -- is always set together with `is_airborne`; the default is the
        -- `.get(..., 0)` fallback of lines 362-363
        let prevPos := state.last_position.getD ⟨none, none, 0, 0⟩
        let state1 := { state with
            last_position := some ⟨data.latitude, data.longitude, alt, gs⟩,
            last_update := some now }
        if prev_airborne = false ∧ current_airborne = true then
          if prevPos.ground_speed < TAKEOFF_SPEED_THRESHOLD ∨
              prevPos.altitude < TAKEOFF_ALTITUDE_THRESHOLD then
            let takeoffs1 := takeoffs ++
              [⟨aircraft_id, now, data.latitude, data.longitude,
                data.aircraft_type, data.aircraft_model⟩]
            let lr := detect_launch_type dist aircraft_id data now now takeoffs1
            ⟨{ state1 with
                is_airborne := some true,
                last_event := some "takeoff",
                takeoff_time := some now,
                last_event_time := some now,
                start_type :=
                  match lr.start_type with
                  | some l => some l
                  | none => state1.start_type },
              lr.takeoffs,
              some ⟨EventKind.takeoff, lr.start_type, lr.paired_with⟩, true⟩
          else ⟨state1, takeoffs, none, false⟩
        else if prev_airborne = true ∧ current_airborne = false then
          if alt ≤ LANDING_ALTITUDE_THRESHOLD then
            ⟨{ state1 with
                is_airborne := some false,
                last_event := some "landing",
                last_event_time := some now,
                start_type := none },
              takeoffs,
              some ⟨EventKind.landing, state1.start_type, none⟩, true⟩
          else ⟨state1, takeoffs, none, false⟩
        else ⟨state1, takeoffs, none, false⟩
    | _, _ => ⟨state, takeoffs, none, false⟩

/-- Run a sequence of `(time, sample)` calls for one aircraft, threading
the flight state and the `recent_takeoffs` list. -/
def runState (dist : DistFn) (aircraft_id : String) :
    FlightState × List TakeoffRecord → List (ℚ × Sample) →
    FlightState × List TakeoffRecord
  | p, [] => p
  | (st, tk), (t, s) :: rest =>
    runState dist aircraft_id
      ((process_flight_events dist aircraft_id s t st tk).state,
       (process_flight_events dist aircraft_id s t st tk).takeoffs) rest

/-- The times at which a sequence of calls emits events. -/
def eventTimes (dist : DistFn) (aircraft_id : String) :
    FlightState → List TakeoffRecord → List (ℚ × Sample) → List ℚ
  | _, _, [] => []
  | st, tk, (t, s) :: rest =>
    match (process_flight_events dist aircraft_id s t st tk).event with
    | some _ =>
      t :: eventTimes dist aircraft_id
        (process_flight_events dist aircraft_id s t st tk).state
        (process_flight_events dist aircraft_id s t st tk).takeoffs rest
    | none =>
      eventTimes dist aircraft_id
        (process_flight_events dist aircraft_id s t st tk).state
        (process_flight_events dist aircraft_id s t st tk).takeoffs rest

/-- `spacedFrom t0 ts`: the times `ts`, each at least `EVENT_COOLDOWN`
after its predecessor (and after the anchor `t0`, when present). -/
def spacedFrom : Option ℚ → List ℚ → Prop
  | _, [] => True
  | none, t :: rest => spacedFrom (some t) rest
  | some t0, t :: rest => EVENT_COOLDOWN ≤ t - t0 ∧ spacedFrom (some t) rest

/-- State-machine invariant: a grounded aircraft's stored last sample is
below at least one takeoff threshold. -/
def FlightInv (st : FlightState) : Prop :=
  st.is_airborne = some false →
    ∃ p, st.last_position = some p ∧
      (p.ground_speed < TAKEOFF_SPEED_THRESHOLD ∨
       p.altitude < TAKEOFF_ALTITUDE_THRESHOLD)

/-! ## Winch release detector (`services/winch_detector.py`) -/

def WINCH_CLIMB_RATE_THRESHOLD : ℚ := 5
def WINCH_DETECTION_TIMEOUT : ℚ := 120
def WINCH_MIN_ALTITUDE_GAIN : ℚ := 100

/-- One entry of `winch_launch_data`.  Entries are only ever created by
`start_winch_tracking`, which sets every field, so the fields are plain
values; absence of the entry is modelled as `none` at the use sites
(`update_winch_tracking` checks `aircraft_id not in winch_launch_data`
without triggering the defaultdict initializer). -/
structure WinchData where
  is_in_winch : Bool
  launch_start_time : ℚ
  launch_start_altitude : ℚ
  max_altitude : ℚ
  last_update : ℚ
  detected_release : Bool
deriving DecidableEq, Repr

/-- The dictionary returned on a detected release (lines 80-83). -/
structure WinchResult where
  winch_launch_altitude : ℚ
  winch_launch_duration : ℚ
deriving DecidableEq, Repr

/-- Python `round(q)` to an integer: round half to even. -/
def pyRoundInt (q : ℚ) : ℤ :=
  let f := ⌊q⌋
  let r := q - f
  if r < 1/2 then f
  else if 1/2 < r then f + 1
  else if f % 2 = 0 then f else f + 1

/-- Python `round(q, 0)`. -/
def pyRound0 (q : ℚ) : ℚ := (pyRoundInt q : ℚ)

/-- Python `round(q, 1)`. -/
def pyRound1 (q : ℚ) : ℚ := (pyRoundInt (10 * q) : ℚ) / 10

/-- `start_winch_tracking(aircraft_id, altitude)` at time `now`
(lines 28-38): the fresh record stored for the aircraft. -/
def start_winch_tracking (now altitude : ℚ) : WinchData :=
  { is_in_winch := true, launch_start_time := now,
    launch_start_altitude := altitude, max_altitude := altitude,
    last_update := now, detected_release := false }

/-- `update_winch_tracking(aircraft_id, altitude, climb_rate)` at time
`now`, acting on this aircraft's record (`none` = aircraft not in
`winch_launch_data`).  Returns the release result (if fired) and the
record afterwards (`none` = deleted or never present). -/
def update_winch_tracking (rec : Option WinchData)
    (altitude climb_rate now : ℚ) : Option WinchResult × Option WinchData :=
  match rec with
  | none => (none, none)
  | some data =>
    if data.is_in_winch = false then (none, some data)
    else
      let data1 := { data with
        last_update := now,
        max_altitude :=
          if data.max_altitude < altitude then altitude else data.max_altitude }
      if WINCH_DETECTION_TIMEOUT < now - data1.launch_start_time then
        (none, some { data1 with is_in_winch := false })
      else if climb_rate < WINCH_CLIMB_RATE_THRESHOLD ∧
          data1.detected_release = false then
        if WINCH_MIN_ALTITUDE_GAIN ≤ data1.max_altitude - data1.launch_start_altitude then
          (some { winch_launch_altitude := pyRound0 data1.max_altitude,
                  winch_launch_duration := pyRound1 (now - data1.launch_start_time) },
           none)
        else (none, some { data1 with is_in_winch := false })
      else (none, some data1)

/-- The winch-relevant slice of `ogn_client.process_beacon`
(lines 148-153): run the flight state machine on the beacon, then call
`update_winch_tracking` with the beacon's altitude and climb rate.  No
code path in the repository calls `start_winch_tracking` (it is imported
in `services/ogn_client.py` line 24 but never invoked), so this is the
only way the winch table is ever touched per beacon. -/
def process_beacon_winch (dist : DistFn) (aircraft_id : String)
    (data : Sample) (climb_rate now : ℚ) (st : FlightState)
    (takeoffs : List TakeoffRecord) (winch : Option WinchData) :
    StepResult × (Option WinchResult × Option WinchData) :=
  let r := process_flight_events dist aircraft_id data now st takeoffs
  (r, update_winch_tracking winch (data.altitude.getD 0) climb_rate now)

/-! ## Nearest airfield and event filtering (`find_nearest_airfield`,
`send_webhook`, `log_event`; `services/flight_events.py` lines 119-244;
`is_registered_homefield`; `services/db.py` line 353) -/

/-- One entry of the loaded `airfields` list.  `latitude_deg` /
`longitude_deg` model key presence (the loop skips entries without both
keys); `name` / `icao` are read with `.get`, so may be `None`. -/
structure Airfield where
  latitude_deg : Option ℚ
  longitude_deg : Option ℚ
  name : Option String
  icao : Option String
deriving DecidableEq, Repr

/-- The `nearest_airfield` accumulator of the loop in
`find_nearest_airfield` (lines 124-140): name, icao and distance of the
closest airfield seen so far. -/
def scanAirfields (dist : DistFn) (lat lon : ℚ) :
    List Airfield → Option (Option String × Option String × ℚ) →
    Option (Option String × Option String × ℚ)
  | [], acc => acc
  | af :: rest, acc =>
    match af.latitude_deg, af.longitude_deg with
    | some alat, some alon =>
      let d := dist (some lat) (some lon) (some alat) (some alon)
      let better :=
        match acc with
        | none => true
        | some (_, _, m) => decide (d < m)
      scanAirfields dist lat lon rest
        (if better then some (af.name, af.icao, d) else acc)
    | _, _ => scanAirfields dist lat lon rest acc

/-- `find_nearest_airfield(latitude, longitude)`: the nearest record, or
the `UNKNOWN` record (with no distance) when the nearest is more than 5 km
away, or `none` when no airfield qualifies. -/
structure NearestResult where
  name : Option String
  icao : Option String
  distance : Option ℚ
deriving DecidableEq, Repr

def find_nearest_airfield (dist : DistFn) (airfields : List Airfield)
    (lat lon : ℚ) : Option NearestResult :=
  match scanAirfields dist lat lon airfields none with
  | none => none
  | some (nm, ic, d) =>
    if 5 < d then some ⟨some "UNKNOWN", some "UNKNOWN", none⟩
    else some ⟨nm, ic, some d⟩

/-- The event dictionary built by `log_event` (lines 190-232); `Option`
fields model both absent keys and the final `None`-filtering
comprehension. -/
structure FlightEvent where
  type : String
  origin : String
  id : String
  timestamp : ℚ
  airfield : Option String
  airfield_icao : Option String
  latitude : Option ℚ
  longitude : Option ℚ
  aircraft_type : Option String
  aircraft_model : Option String
  registration : Option String
  start_type : Option String
  paired_with : Option String
deriving DecidableEq, Repr

/-- The webhook payload of `send_webhook` (lines 158-166). -/
structure WebhookPayload where
  type : String
  origin : String
  id : String
  airfield : Option String
deriving DecidableEq, Repr

/-- Python string truthiness for optional fields copied with
`if field in d and d[field]:` (an empty string is falsy). -/
def pyTruthyStr : Option String → Option String
  | none => none
  | some s => if s = "" then none else some s

/-- `send_webhook(event_type, aircraft_id, airfield_icao)`: `none` when
`WEBHOOK_ENABLED` is off, otherwise the posted payload (the airfield key
is included only for a truthy, non-`UNKNOWN` ICAO). -/
def send_webhook (enabled : Bool) (event_type aircraft_id : String)
    (airfield_icao : Option String) : Option WebhookPayload :=
  if enabled = false then none
  else some
    { type := event_type, origin := "FSK", id := aircraft_id,
      airfield :=
        match airfield_icao with
        | some c => if c = "" ∨ c = "UNKNOWN" then none else some c
        | none => none }

/-- The geotagging part of `log_event` (lines 197-211): the event after
the airfield fields are filled in, together with the local
`airfield_icao` variable. -/
def geotag_event (dist : DistFn) (airfields : List Airfield)
    (ev : FlightEvent) (lat lon : Option ℚ) :
    FlightEvent × Option String :=
  match lat, lon with
  | some la, some lo =>
    match find_nearest_airfield dist airfields la lo with
    | some nearest =>
      if nearest.name ≠ some "UNKNOWN" then
        ({ ev with airfield := nearest.name, airfield_icao := nearest.icao },
         nearest.icao)
      else
        ({ ev with
            airfield := nearest.name,
            latitude := some la,
            longitude := some lo }, none)
    | none => (ev, none)
  | _, _ => ({ ev with airfield := some "UNKNOWN" }, none)

/-- The event skeleton of `log_event` (lines 190-195). -/
def base_event (event_type aircraft_id : String) (now : ℚ) : FlightEvent :=
  { type := event_type, origin := "fsk-flarm-tracker", id := aircraft_id,
    timestamp := now, airfield := none, airfield_icao := none,
    latitude := none, longitude := none, aircraft_type := none,
    aircraft_model := none, registration := none, start_type := none,
    paired_with := none }

/-- `log_event(event_type, aircraft_id, aircraft_data, start_type,
paired_with)` at time `now`, with `is_registered_homefield` modelled by
the cached set membership `registered` (`services/db.py` line 353) and
the `WEBHOOK_ENABLED` flag as `enabled`.  Returns the event handed to
`store_flight_event` (or `none` when the event is dropped) and the
webhook payload posted by `send_webhook` (or `none`).  The drop test is
`if not airfield_icao or not is_registered_homefield(airfield_icao)`:
a missing or empty (falsy) ICAO, or an unregistered one, drops the
event. -/
def log_event (dist : DistFn) (airfields : List Airfield)
    (registered : String → Bool) (enabled : Bool)
    (event_type aircraft_id : String) (data : Sample)
    (start_type paired_with : Option String) (now : ℚ) :
    Option FlightEvent × Option WebhookPayload :=
  match (geotag_event dist airfields (base_event event_type aircraft_id now)
      data.latitude data.longitude).2 with
  | none => (none, none)
  | some c =>
    if c = "" then (none, none)
    else if registered c = false then (none, none)
    else
      (some { (geotag_event dist airfields (base_event event_type aircraft_id now)
            data.latitude data.longitude).1 with
          aircraft_type := pyTruthyStr data.aircraft_type,
          aircraft_model := pyTruthyStr data.aircraft_model,
          registration := pyTruthyStr data.registration,
          start_type := pyTruthyStr start_type,
          paired_with := pyTruthyStr paired_with },
       send_webhook enabled event_type aircraft_id (some c))

/-! ## Presence-gated poller (`services/adsb_client.py`) -/

def ADSB_AIRCRAFT_REMOVAL_TIMEOUT : ℚ := 600

/-- A possibly non-numeric altitude value (`alt_baro` can be the string
`"ground"`; the fetch loop keeps aircraft whose altitude fails to parse
as a float). -/
inductive AltVal
  | num (q : ℚ)
  | str (s : String)
deriving DecidableEq, Repr

/-- One normalized aircraft record, the output of
`AdsbClient.normalize_aircraft_data` after its `None`/empty cleanup
(lines 89-157).  The claim-relevant fields are explicit; `payload` stands
for the remaining normalized fields, so that the value-equality diff of
the fetch loop is meaningful. -/
structure NormAc where
  aircraft_id : Option String
  hex : Option String
  flight : Option String
  altitude : Option AltVal
  timestamp : ℚ
  payload : String
deriving DecidableEq, Repr

/-- An entry of the `adsb_aircraft_queue`. -/
inductive AdsbMsg
  | update (data : NormAc)
  | remove (aircraft_id : String) (hex : Option String)
deriving DecidableEq, Repr

/-- The poller state: the `adsb_aircraft_data` table (association list in
insertion order, mirroring Python dict order), the outbound queue, and
the `last_had_clients` / `last_cleanup_time` locals of
`fetch_and_process_data`. -/
structure AdsbState where
  data : List (String × NormAc)
  queue : List AdsbMsg
  lastHadClients : Bool
  lastCleanupTime : ℚ
deriving DecidableEq, Repr

/-- Association-list lookup (Python `aircraft_id in adsb_aircraft_data` /
indexing). -/
def alookup : List (String × NormAc) → String → Option NormAc
  | [], _ => none
  | (k, v) :: rest, key => if k = key then some v else alookup rest key

/-- Association-list store (Python `d[k] = v`: overwrite in place, append
when new — dict insertion order). -/
def astore : List (String × NormAc) → String → NormAc → List (String × NormAc)
  | [], k, v => [(k, v)]
  | (k', v') :: rest, k, v =>
    if k' = k then (k, v) :: rest else (k', v') :: astore rest k v

/-- `AdsbClient.clear_aircraft_data` (lines 159-172): one removal message
per tracked aircraft, then the table is cleared. -/
def clear_aircraft_data (data : List (String × NormAc)) :
    List AdsbMsg × List (String × NormAc) :=
  (data.map fun p => AdsbMsg.remove p.1 p.2.hex, [])

/-- Building `current_aircraft` from a fetched list (lines 230-252):
require a truthy `aircraft_id`, drop aircraft with numeric altitude above
5000 ft, drop aircraft whose callsign is `TWR`, keyed by id (later
entries overwrite earlier ones). -/
def buildCurrent (acs : List NormAc) : List (String × NormAc) :=
  acs.foldl
    (fun cur ac =>
      match ac.aircraft_id with
      | none => cur
      | some i =>
        if i = "" then cur
        else if (match ac.altitude with
                 | some (AltVal.num q) => decide (5000 < q)
                 | _ => false) then cur
        else if ac.flight.getD "" = "TWR" then cur
        else astore cur i ac)
    []

/-- The new/updated-aircraft pass (lines 255-262): enqueue an update for
every current aircraft that is new or differs by value from the stored
entry, storing it. -/
def applyAdsbUpdates (data : List (String × NormAc)) (queue : List AdsbMsg)
    (cur : List (String × NormAc)) : List (String × NormAc) × List AdsbMsg :=
  cur.foldl
    (fun (dq : List (String × NormAc) × List AdsbMsg) p =>
      match alookup dq.1 p.1 with
      | some old =>
        if old = p.2 then dq
        else (astore dq.1 p.1 p.2, dq.2 ++ [AdsbMsg.update p.2])
      | none => (astore dq.1 p.1 p.2, dq.2 ++ [AdsbMsg.update p.2]))
    (data, queue)

/-- The removed-aircraft pass (lines 264-271): entries absent from the
current fetch are popped and produce removal messages. -/
def applyAdsbRemovals (data : List (String × NormAc)) (queue : List AdsbMsg)
    (cur : List (String × NormAc)) : List (String × NormAc) × List AdsbMsg :=
  (data.filter fun p => (alookup cur p.1).isSome,
   queue ++ (data.filter fun p => (alookup cur p.1).isNone).map
     fun p => AdsbMsg.remove p.1 p.2.hex)

/-- `AdsbClient.cleanup_old_aircraft` (lines 174-195): drop entries whose
timestamp is older than the removal timeout, one removal message each. -/
def cleanup_old_aircraft (data : List (String × NormAc))
    (queue : List AdsbMsg) (now : ℚ) :
    List (String × NormAc) × List AdsbMsg :=
  (data.filter fun p => decide (now - p.2.timestamp ≤ ADSB_AIRCRAFT_REMOVAL_TIMEOUT),
   queue ++ (data.filter fun p =>
       decide (ADSB_AIRCRAFT_REMOVAL_TIMEOUT < now - p.2.timestamp)).map
     fun p => AdsbMsg.remove p.1 p.2.hex)

/-- One iteration of the `while self.running` loop of
`AdsbClient.fetch_and_process_data` (lines 204-283).  `clientCount` is
the value of `get_connected_clients_count()` (`none` when the callback is
unset); `fetchResult` is what `fetch_aircraft_in_area` would return,
already normalized (`none` models a fetch error); it is consumed only
when a fetch actually happens.  Returns the new state and whether the
iteration fetched from the API. -/
def adsb_tick (st : AdsbState) (clientCount : Option Nat)
    (fetchResult : Option (List NormAc)) (now : ℚ) : AdsbState × Bool :=
  let hasClients :=
    match clientCount with
    | some n => decide (0 < n)
    | none => false
  -- transition subscribers → no-subscribers: clear and notify
  let cleared :=
    clientCount.isSome ∧ hasClients = false ∧ st.lastHadClients = true
  let data0 := if cleared then [] else st.data
  let queue0 :=
    if cleared then st.queue ++ (clear_aircraft_data st.data).1 else st.queue
  if hasClients then
    let processed :=
      match fetchResult with
      | some acs =>
        let cur := buildCurrent acs
        let (d1, q1) := applyAdsbUpdates data0 queue0 cur
        applyAdsbRemovals d1 q1 cur
      | none => (data0, queue0)
    -- the staleness sweep runs every 60 s while fetching
    if 60 ≤ now - st.lastCleanupTime then
      let (d2, q2) := cleanup_old_aircraft processed.1 processed.2 now
      (⟨d2, q2, hasClients, now⟩, true)
    else
      (⟨processed.1, processed.2, hasClients, st.lastCleanupTime⟩, true)
  else
    (⟨data0, queue0, hasClients, st.lastCleanupTime⟩, false)

/-- Whether a queue message is a removal for the given aircraft. -/
def isRemovalFor (aircraft_id : String) : AdsbMsg → Bool
  | AdsbMsg.remove i _ => i = aircraft_id
  | AdsbMsg.update _ => false

/-- A concrete stand-in distance function for closed evaluations (the
repository's `calculate_distance` is the transcendental Haversine
formula; claims are proved for every distance function). -/
def distZero : DistFn := fun _ _ _ _ => 0

/-- A second concrete stand-in distance function (constant 1 km). -/
def distOne : DistFn := fun _ _ _ _ => 1

/-! # Theorems -/

/-- A call inside the cooldown window returns `False` immediately, leaving
state and takeoff list untouched (lines 319-324). -/
theorem pfe_cooldown_frame (dist : DistFn) (aircraft_id : String)
    (data : Sample) (now : ℚ) (st : FlightState) (tk : List TakeoffRecord)
    (h : inCooldown st now = true) :
    process_flight_events dist aircraft_id data now st tk =
      ⟨st, tk, none, false⟩ := by
  simp [process_flight_events, h]

/-- C2 (confirmed): for an aircraft never seen before (fresh defaultdict
state), the first call emits no event and returns `False` regardless of
the thresholds, and merely initializes the airborne flag, last position
and last update. -/
theorem claim_C2 (dist : DistFn) (aircraft_id : String) (data : Sample)
    (now : ℚ) (tk : List TakeoffRecord) (gs alt : ℚ)
    (hgs : data.ground_speed = some gs) (halt : data.altitude = some alt) :
    (process_flight_events dist aircraft_id data now initFlightState tk).event = none ∧
    (process_flight_events dist aircraft_id data now initFlightState tk).ret = false ∧
    (process_flight_events dist aircraft_id data now initFlightState tk).state.is_airborne =
      some (decide (TAKEOFF_SPEED_THRESHOLD ≤ gs ∧ TAKEOFF_ALTITUDE_THRESHOLD ≤ alt)) ∧
    (process_flight_events dist aircraft_id data now initFlightState tk).state.last_position =
      some ⟨data.latitude, data.longitude, alt, gs⟩ ∧
    (process_flight_events dist aircraft_id data now initFlightState tk).state.last_update =
      some now ∧
    (process_flight_events dist aircraft_id data now initFlightState tk).takeoffs = tk := by
  simp [process_flight_events, inCooldown, initFlightState, hgs, halt]

/-- Witness for C2: a first sample well above both thresholds (speed 50,
altitude 100) initializes the state as airborne without any event. -/
theorem claim_C2_witness :
    (process_flight_events distZero "FLRAAAAAA"
        ⟨some 50, some 100, some 55, some 9, some "Glider", none, none⟩ 0
        initFlightState []).event = none ∧
    (process_flight_events distZero "FLRAAAAAA"
        ⟨some 50, some 100, some 55, some 9, some "Glider", none, none⟩ 0
        initFlightState []).ret = false ∧
    (process_flight_events distZero "FLRAAAAAA"
        ⟨some 50, some 100, some 55, some 9, some "Glider", none, none⟩ 0
        initFlightState []).state.is_airborne =
      some (decide (TAKEOFF_SPEED_THRESHOLD ≤ (50:ℚ) ∧ TAKEOFF_ALTITUDE_THRESHOLD ≤ (100:ℚ))) ∧
    (process_flight_events distZero "FLRAAAAAA"
        ⟨some 50, some 100, some 55, some 9, some "Glider", none, none⟩ 0
        initFlightState []).state.last_position =
      some ⟨some 55, some 9, 100, 50⟩ ∧
    (process_flight_events distZero "FLRAAAAAA"
        ⟨some 50, some 100, some 55, some 9, some "Glider", none, none⟩ 0
        initFlightState []).state.last_update = some 0 ∧
    (process_flight_events distZero "FLRAAAAAA"
        ⟨some 50, some 100, some 55, some 9, some "Glider", none, none⟩ 0
        initFlightState []).takeoffs = [] :=
  claim_C2 distZero "FLRAAAAAA"
    ⟨some 50, some 100, some 55, some 9, some "Glider", none, none⟩ 0 [] 50 100
    rfl rfl

/-- C3 (confirmed): for an airborne aircraft outside the cooldown window,
a landing event fires exactly when the sample fails the airborne
thresholds AND its altitude is at most `LANDING_ALTITUDE_THRESHOLD`
(100 m); in particular any sample above 100 m produces no event at all. -/
theorem claim_C3 (dist : DistFn) (aircraft_id : String) (data : Sample)
    (now : ℚ) (st : FlightState) (tk : List TakeoffRecord) (gs alt : ℚ)
    (hair : st.is_airborne = some true)
    (hgs : data.ground_speed = some gs) (halt : data.altitude = some alt)
    (hcd : inCooldown st now = false) :
    ((process_flight_events dist aircraft_id data now st tk).event =
        some ⟨EventKind.landing, st.start_type, none⟩ ↔
      (¬ (TAKEOFF_SPEED_THRESHOLD ≤ gs ∧ TAKEOFF_ALTITUDE_THRESHOLD ≤ alt) ∧
        alt ≤ LANDING_ALTITUDE_THRESHOLD)) ∧
    (LANDING_ALTITUDE_THRESHOLD < alt →
      (process_flight_events dist aircraft_id data now st tk).event = none) := by
  by_cases hca : (TAKEOFF_SPEED_THRESHOLD ≤ gs ∧ TAKEOFF_ALTITUDE_THRESHOLD ≤ alt)
  · constructor
    · simp [process_flight_events, hcd, hgs, halt, hair, hca]
    · intro _
      simp [process_flight_events, hcd, hgs, halt, hair, hca]
  · by_cases h100 : alt ≤ LANDING_ALTITUDE_THRESHOLD
    · constructor
      · simp [process_flight_events, hcd, hgs, halt, hair, hca, h100]
      · intro hgt
        exact absurd h100 (not_le.mpr hgt)
    · constructor
      · simp [process_flight_events, hcd, hgs, halt, hair, hca, h100]
      · intro _
        simp [process_flight_events, hcd, hgs, halt, hair, hca, h100]

/-- Witness for C3: an airborne aircraft whose speed drops to 10 km/h at
altitude 50 m fires a landing, and at altitude 150 m fires nothing. -/
theorem claim_C3_witness :
    (((process_flight_events distZero "FLRBBBBBB"
        ⟨some 10, some 50, some 55, some 9, some "Glider", none, none⟩ 100
        { initFlightState with
            is_airborne := some true,
            last_position := some ⟨some 55, some 9, 300, 90⟩ } []).event =
      some ⟨EventKind.landing, none, none⟩ ↔
      (¬ (TAKEOFF_SPEED_THRESHOLD ≤ (10:ℚ) ∧ TAKEOFF_ALTITUDE_THRESHOLD ≤ (50:ℚ)) ∧
        (50:ℚ) ≤ LANDING_ALTITUDE_THRESHOLD)) ∧
     (LANDING_ALTITUDE_THRESHOLD < (50:ℚ) →
      (process_flight_events distZero "FLRBBBBBB"
        ⟨some 10, some 50, some 55, some 9, some "Glider", none, none⟩ 100
        { initFlightState with
            is_airborne := some true,
            last_position := some ⟨some 55, some 9, 300, 90⟩ } []).event = none)) ∧
    (LANDING_ALTITUDE_THRESHOLD < (150:ℚ) →
      (process_flight_events distZero "FLRBBBBBB"
        ⟨some 10, some 150, some 55, some 9, some "Glider", none, none⟩ 100
        { initFlightState with
            is_airborne := some true,
            last_position := some ⟨some 55, some 9, 300, 90⟩ } []).event = none) :=
  ⟨claim_C3 distZero "FLRBBBBBB"
      ⟨some 10, some 50, some 55, some 9, some "Glider", none, none⟩ 100
      { initFlightState with
          is_airborne := some true,
          last_position := some ⟨some 55, some 9, 300, 90⟩ } [] 10 50
      rfl rfl rfl rfl,
   (claim_C3 distZero "FLRBBBBBB"
      ⟨some 10, some 150, some 55, some 9, some "Glider", none, none⟩ 100
      { initFlightState with
          is_airborne := some true,
          last_position := some ⟨some 55, some 9, 300, 90⟩ } [] 10 150
      rfl rfl rfl rfl).2⟩

/-- C7 counterexample: a call 5 s after the last event (inside the 10 s
cooldown) leaves the stored last position and last update time at their
old values — the state does NOT reflect the new sample, contradicting the
claim (the source returns at line 324 before the update at lines
366-373). -/
theorem claim_C7_counterexample :
    inCooldown
      { initFlightState with
          is_airborne := some true,
          last_position := some ⟨some 55, some 9, 300, 90⟩,
          last_update := some 0,
          last_event_time := some 0 } 5 = true ∧
    (process_flight_events distZero "FLRCCCCCC"
        ⟨some 10, some 50, some 56, some 10, some "Glider", none, none⟩ 5
        { initFlightState with
            is_airborne := some true,
            last_position := some ⟨some 55, some 9, 300, 90⟩,
            last_update := some 0,
            last_event_time := some 0 } []).state.last_update ≠ some 5 ∧
    (process_flight_events distZero "FLRCCCCCC"
        ⟨some 10, some 50, some 56, some 10, some "Glider", none, none⟩ 5
        { initFlightState with
            is_airborne := some true,
            last_position := some ⟨some 55, some 9, 300, 90⟩,
            last_update := some 0,
            last_event_time := some 0 } []).state.last_position ≠
      some ⟨some 56, some 10, 50, 10⟩ := by
  have hcool : inCooldown
      { initFlightState with
          is_airborne := some true,
          last_position := some ⟨some 55, some 9, (300:ℚ), 90⟩,
          last_update := some 0,
          last_event_time := some (0:ℚ) } 5 = true := by
    simp only [inCooldown, EVENT_COOLDOWN, decide_eq_true_eq]
    norm_num
  refine ⟨hcool, ?_, ?_⟩ <;>
    rw [pfe_cooldown_frame _ _ _ _ _ _ hcool] <;>
    simp [initFlightState, Position.mk.injEq]

/-- C7 amended (proved): a call inside the cooldown window suppresses the
event AND leaves the aircraft's flight state entirely unchanged — last
position, last update time and airborne flag all keep their previous
values (the cooldown gate returns before any state mutation). -/
theorem claim_C7 (dist : DistFn) (aircraft_id : String) (data : Sample)
    (now : ℚ) (st : FlightState) (tk : List TakeoffRecord)
    (h : inCooldown st now = true) :
    (process_flight_events dist aircraft_id data now st tk).event = none ∧
    (process_flight_events dist aircraft_id data now st tk).ret = false ∧
    (process_flight_events dist aircraft_id data now st tk).state = st ∧
    (process_flight_events dist aircraft_id data now st tk).takeoffs = tk := by
  rw [pfe_cooldown_frame dist aircraft_id data now st tk h]
  exact ⟨rfl, rfl, rfl, rfl⟩

/-- Witness for the amended C7, at the counterexample's input. -/
theorem claim_C7_witness :
    (process_flight_events distZero "FLRCCCCCC"
        ⟨some 10, some 50, some 56, some 10, some "Glider", none, none⟩ 5
        { initFlightState with
            is_airborne := some true,
            last_position := some ⟨some 55, some 9, 300, 90⟩,
            last_update := some 0,
            last_event_time := some 0 } []).event = none ∧
    (process_flight_events distZero "FLRCCCCCC"
        ⟨some 10, some 50, some 56, some 10, some "Glider", none, none⟩ 5
        { initFlightState with
            is_airborne := some true,
            last_position := some ⟨some 55, some 9, 300, 90⟩,
            last_update := some 0,
            last_event_time := some 0 } []).ret = false ∧
    (process_flight_events distZero "FLRCCCCCC"
        ⟨some 10, some 50, some 56, some 10, some "Glider", none, none⟩ 5
        { initFlightState with
            is_airborne := some true,
            last_position := some ⟨some 55, some 9, 300, 90⟩,
            last_update := some 0,
            last_event_time := some 0 } []).state =
      { initFlightState with
          is_airborne := some true,
          last_position := some ⟨some 55, some 9, 300, 90⟩,
          last_update := some 0,
          last_event_time := some 0 } ∧
    (process_flight_events distZero "FLRCCCCCC"
        ⟨some 10, some 50, some 56, some 10, some "Glider", none, none⟩ 5
        { initFlightState with
            is_airborne := some true,
            last_position := some ⟨some 55, some 9, 300, 90⟩,
            last_update := some 0,
            last_event_time := some 0 } []).takeoffs = [] :=
  claim_C7 distZero "FLRCCCCCC"
    ⟨some 10, some 50, some 56, some 10, some "Glider", none, none⟩ 5
    { initFlightState with
        is_airborne := some true,
        last_position := some ⟨some 55, some 9, 300, 90⟩,
        last_update := some 0,
        last_event_time := some 0 } []
    (by simp only [inCooldown, EVENT_COOLDOWN, decide_eq_true_eq]; norm_num)

/-- C4 (confirmed): for an active winch record, the update abandons
tracking (no result, record kept but deactivated) once elapsed time
exceeds `WINCH_DETECTION_TIMEOUT` (120 s); otherwise, when the climb rate
drops below `WINCH_CLIMB_RATE_THRESHOLD` (5 m/s) and release has not yet
fired, it fires — returning the rounded running max altitude and launch
duration and deleting the record — exactly when the altitude gain reaches
`WINCH_MIN_ALTITUDE_GAIN` (100 m), and abandons tracking without firing on
a smaller gain; a deleted record can never fire again. -/
theorem claim_C4 (data : WinchData) (altitude climb_rate now : ℚ)
    (hact : data.is_in_winch = true) :
    (WINCH_DETECTION_TIMEOUT < now - data.launch_start_time →
      update_winch_tracking (some data) altitude climb_rate now =
        (none, some { data with
          last_update := now,
          max_altitude :=
            if data.max_altitude < altitude then altitude else data.max_altitude,
          is_in_winch := false })) ∧
    (now - data.launch_start_time ≤ WINCH_DETECTION_TIMEOUT →
      climb_rate < WINCH_CLIMB_RATE_THRESHOLD →
      data.detected_release = false →
      ((WINCH_MIN_ALTITUDE_GAIN ≤
          (if data.max_altitude < altitude then altitude else data.max_altitude) -
            data.launch_start_altitude ↔
        update_winch_tracking (some data) altitude climb_rate now =
          (some ⟨pyRound0
              (if data.max_altitude < altitude then altitude else data.max_altitude),
            pyRound1 (now - data.launch_start_time)⟩, none)) ∧
       ((if data.max_altitude < altitude then altitude else data.max_altitude) -
          data.launch_start_altitude < WINCH_MIN_ALTITUDE_GAIN →
        update_winch_tracking (some data) altitude climb_rate now =
          (none, some { data with
            last_update := now,
            max_altitude :=
              if data.max_altitude < altitude then altitude else data.max_altitude,
            is_in_winch := false })))) ∧
    (∀ a c t, update_winch_tracking none a c t = (none, none)) := by
  refine ⟨fun hto => ?_, fun hto hcr hrel => ⟨?_, fun hgain => ?_⟩, fun a c t => rfl⟩
  · simp [update_winch_tracking, hact, hto]
  · constructor
    · intro hgain
      simp [update_winch_tracking, hact, not_lt.mpr hto, hcr, hrel, hgain]
    · intro hr
      by_cases hgain : WINCH_MIN_ALTITUDE_GAIN ≤
          (if data.max_altitude < altitude then altitude else data.max_altitude) -
            data.launch_start_altitude
      · exact hgain
      · simp [update_winch_tracking, hact, not_lt.mpr hto, hcr, hrel, hgain] at hr
  · simp [update_winch_tracking, hact, not_lt.mpr hto, hcr, hrel, not_le.mpr hgain]

/-- Witness for C4: the spec's scenario — start altitude 50, max 200,
climb dropping below 5 m/s at 20 s fires release (altitude 200, duration
20); the same with max 120 (gain 70) abandons without firing. -/
theorem claim_C4_witness :
    update_winch_tracking (some ⟨true, 0, 50, 200, 0, false⟩) 200 3 20 =
      (some ⟨200, 20⟩, none) ∧
    update_winch_tracking (some ⟨true, 0, 50, 120, 0, false⟩) 120 3 20 =
      (none, some ⟨false, 0, 50, 120, 20, false⟩) := by
  constructor
  · have h := (claim_C4 ⟨true, 0, 50, 200, 0, false⟩ 200 3 20 rfl).2.1
      (by norm_num [WINCH_DETECTION_TIMEOUT]) (by norm_num [WINCH_CLIMB_RATE_THRESHOLD]) rfl
    have h2 := h.1.mp (by norm_num [WINCH_MIN_ALTITUDE_GAIN])
    rw [h2]
    norm_num [pyRound0, pyRound1, pyRoundInt]
  · have h := (claim_C4 ⟨true, 0, 50, 120, 0, false⟩ 120 3 20 rfl).2.1
      (by norm_num [WINCH_DETECTION_TIMEOUT]) (by norm_num [WINCH_CLIMB_RATE_THRESHOLD]) rfl
    have h2 := h.2 (by norm_num [WINCH_MIN_ALTITUDE_GAIN])
    rw [h2]
    norm_num

/-- Every call either emits nothing and leaves the cooldown anchor
`last_event_time` unchanged, or emits an event, stamps the anchor with the
current time, and was outside the cooldown window. -/
theorem pfe_step_shape (dist : DistFn) (aircraft_id : String) (data : Sample)
    (now : ℚ) (st : FlightState) (tk : List TakeoffRecord) :
    ((process_flight_events dist aircraft_id data now st tk).event = none ∧
     (process_flight_events dist aircraft_id data now st tk).state.last_event_time =
       st.last_event_time) ∨
    ((∃ e, (process_flight_events dist aircraft_id data now st tk).event = some e) ∧
     (process_flight_events dist aircraft_id data now st tk).state.last_event_time =
       some now ∧
     inCooldown st now = false) := by
  by_cases hc : inCooldown st now = true
  · left
    rw [pfe_cooldown_frame dist aircraft_id data now st tk hc]
    exact ⟨rfl, rfl⟩
  · have hc' : inCooldown st now = false := by
      cases h : inCooldown st now
      · rfl
      · exact absurd h hc
    cases hgs : data.ground_speed with
    | none => left; simp [process_flight_events, hc', hgs]
    | some gs =>
      cases halt : data.altitude with
      | none => left; simp [process_flight_events, hc', hgs, halt]
      | some alt =>
        cases hia : st.is_airborne with
        | none => left; simp [process_flight_events, hc', hgs, halt, hia]
        | some prev =>
          by_cases hca : (TAKEOFF_SPEED_THRESHOLD ≤ gs ∧ TAKEOFF_ALTITUDE_THRESHOLD ≤ alt)
          · cases prev with
            | true => left; simp [process_flight_events, hc', hgs, halt, hia, hca]
            | false =>
              by_cases hg :
                  (st.last_position.getD ⟨none, none, 0, 0⟩).ground_speed <
                      TAKEOFF_SPEED_THRESHOLD ∨
                    (st.last_position.getD ⟨none, none, 0, 0⟩).altitude <
                      TAKEOFF_ALTITUDE_THRESHOLD
              · right
                refine ⟨?_, ?_, hc'⟩ <;>
                  simp [process_flight_events, hc', hgs, halt, hia, hca, hg]
              · left; simp [process_flight_events, hc', hgs, halt, hia, hca, hg]
          · cases prev with
            | false => left; simp [process_flight_events, hc', hgs, halt, hia, hca]
            | true =>
              by_cases h100 : alt ≤ LANDING_ALTITUDE_THRESHOLD
              · right
                refine ⟨?_, ?_, hc'⟩ <;>
                  simp [process_flight_events, hc', hgs, halt, hia, hca, h100]
              · left; simp [process_flight_events, hc', hgs, halt, hia, hca, h100]

/-- Outside the cooldown window, the anchored previous event is at least
`EVENT_COOLDOWN` old. -/
theorem cooldown_false_spacing (st : FlightState) (now t0 : ℚ)
    (hc : inCooldown st now = false) (h : st.last_event_time = some t0) :
    EVENT_COOLDOWN ≤ now - t0 := by
  unfold inCooldown at hc
  rw [h] at hc
  simpa using hc

/-- The emitted-event times of any call sequence are spaced by at least
`EVENT_COOLDOWN`, starting from the state's current cooldown anchor. -/
theorem eventTimes_spaced (dist : DistFn) (aircraft_id : String)
    (inputs : List (ℚ × Sample)) :
    ∀ (st : FlightState) (tk : List TakeoffRecord),
      spacedFrom st.last_event_time (eventTimes dist aircraft_id st tk inputs) := by
  induction inputs with
  | nil => intro st tk; simp [eventTimes, spacedFrom]
  | cons p rest ih =>
    obtain ⟨t, s⟩ := p
    intro st tk
    rcases pfe_step_shape dist aircraft_id s t st tk with
      ⟨hnone, hframe⟩ | ⟨⟨e, hsome⟩, hstamp, hcool⟩
    · rw [eventTimes, hnone]
      rw [← hframe]
      exact ih _ _
    · rw [eventTimes, hsome]
      have htail := ih (process_flight_events dist aircraft_id s t st tk).state
        (process_flight_events dist aircraft_id s t st tk).takeoffs
      rw [hstamp] at htail
      cases hle : st.last_event_time with
      | none => exact htail
      | some t0 =>
        exact ⟨cooldown_false_spacing st t t0 hcool hle, htail⟩

/-- C1 (confirmed): over any sequence of calls for one aircraft starting
from a fresh state, no event is emitted within `EVENT_COOLDOWN` (10 s) of
the previously emitted event for that aircraft — consecutive emitted
event times are at least 10 s apart, so a qualifying transition within
10 s of a takeoff produces no second event. -/
theorem claim_C1 (dist : DistFn) (aircraft_id : String)
    (tk : List TakeoffRecord) (inputs : List (ℚ × Sample)) :
    spacedFrom none (eventTimes dist aircraft_id initFlightState tk inputs) :=
  eventTimes_spaced dist aircraft_id inputs initFlightState tk

/-- One step preserves the grounded-sample invariant `FlightInv`. -/
theorem pfe_inv_preserved (dist : DistFn) (aircraft_id : String)
    (data : Sample) (now : ℚ) (st : FlightState) (tk : List TakeoffRecord)
    (hi : FlightInv st) :
    FlightInv (process_flight_events dist aircraft_id data now st tk).state := by
  by_cases hc : inCooldown st now = true
  · rw [pfe_cooldown_frame dist aircraft_id data now st tk hc]
    exact hi
  · have hc' : inCooldown st now = false := by
      cases h : inCooldown st now
      · rfl
      · exact absurd h hc
    cases hgs : data.ground_speed with
    | none =>
      have h : (process_flight_events dist aircraft_id data now st tk).state = st := by
        simp [process_flight_events, hc', hgs]
      rw [h]; exact hi
    | some gs =>
      cases halt : data.altitude with
      | none =>
        have h : (process_flight_events dist aircraft_id data now st tk).state = st := by
          simp [process_flight_events, hc', hgs, halt]
        rw [h]; exact hi
      | some alt =>
        cases hia : st.is_airborne with
        | none =>
          intro hfalse
          by_cases hca : (TAKEOFF_SPEED_THRESHOLD ≤ gs ∧ TAKEOFF_ALTITUDE_THRESHOLD ≤ alt)
          · exfalso
            simp [process_flight_events, hc', hgs, halt, hia, hca] at hfalse
          · refine ⟨⟨data.latitude, data.longitude, alt, gs⟩, ?_, ?_⟩
            · simp [process_flight_events, hc', hgs, halt, hia]
            · rcases not_and_or.mp hca with h30 | h20
              · exact Or.inl (not_le.mp h30)
              · exact Or.inr (not_le.mp h20)
        | some prev =>
          by_cases hca : (TAKEOFF_SPEED_THRESHOLD ≤ gs ∧ TAKEOFF_ALTITUDE_THRESHOLD ≤ alt)
          · cases prev with
            | true =>
              intro hfalse
              exfalso
              simp [process_flight_events, hc', hgs, halt, hia, hca] at hfalse
            | false =>
              obtain ⟨p, hp, hprop⟩ := hi hia
              have hg : (st.last_position.getD ⟨none, none, 0, 0⟩).ground_speed <
                    TAKEOFF_SPEED_THRESHOLD ∨
                  (st.last_position.getD ⟨none, none, 0, 0⟩).altitude <
                    TAKEOFF_ALTITUDE_THRESHOLD := by
                rw [hp]
                exact hprop
              intro hfalse
              exfalso
              simp [process_flight_events, hc', hgs, halt, hia, hca, hg] at hfalse
          · cases prev with
            | false =>
              intro _
              refine ⟨⟨data.latitude, data.longitude, alt, gs⟩, ?_, ?_⟩
              · simp [process_flight_events, hc', hgs, halt, hia, hca]
              · rcases not_and_or.mp hca with h30 | h20
                · exact Or.inl (not_le.mp h30)
                · exact Or.inr (not_le.mp h20)
            | true =>
              by_cases h100 : alt ≤ LANDING_ALTITUDE_THRESHOLD
              · intro _
                refine ⟨⟨data.latitude, data.longitude, alt, gs⟩, ?_, ?_⟩
                · simp [process_flight_events, hc', hgs, halt, hia, hca, h100]
                · rcases not_and_or.mp hca with h30 | h20
                  · exact Or.inl (not_le.mp h30)
                  · exact Or.inr (not_le.mp h20)
              · intro hfalse
                exfalso
                simp [process_flight_events, hc', hgs, halt, hia, hca, h100] at hfalse

/-- The invariant holds along any run from a given invariant state. -/
theorem runState_inv (dist : DistFn) (aircraft_id : String)
    (inputs : List (ℚ × Sample)) :
    ∀ (st : FlightState) (tk : List TakeoffRecord), FlightInv st →
      FlightInv (runState dist aircraft_id (st, tk) inputs).1 := by
  induction inputs with
  | nil => intro st tk hi; exact hi
  | cons p rest ih =>
    obtain ⟨t, s⟩ := p
    intro st tk hi
    exact ih _ _ (pfe_inv_preserved dist aircraft_id s t st tk hi)

/-- C10 (confirmed): (a) in every state reachable from a fresh state, a
false airborne flag implies the stored last sample is below a takeoff
threshold (`FlightInv`); (b) consequently, under the invariant, a
grounded aircraft whose sample meets both thresholds outside the cooldown
window always fires a takeoff — the previous-sample OR-guard at line 381
never suppresses it. -/
theorem claim_C10 (dist : DistFn) (aircraft_id : String) :
    (∀ (tk : List TakeoffRecord) (inputs : List (ℚ × Sample)),
      FlightInv (runState dist aircraft_id (initFlightState, tk) inputs).1) ∧
    (∀ (st : FlightState) (tk : List TakeoffRecord) (data : Sample)
        (now gs alt : ℚ), FlightInv st → st.is_airborne = some false →
      inCooldown st now = false → data.ground_speed = some gs →
      data.altitude = some alt → TAKEOFF_SPEED_THRESHOLD ≤ gs →
      TAKEOFF_ALTITUDE_THRESHOLD ≤ alt →
      (process_flight_events dist aircraft_id data now st tk).ret = true ∧
      ∃ e, (process_flight_events dist aircraft_id data now st tk).event = some e ∧
        e.kind = EventKind.takeoff) := by
  constructor
  · intro tk inputs
    refine runState_inv dist aircraft_id inputs initFlightState tk ?_
    intro hfalse
    exact absurd hfalse (by simp [initFlightState])
  · intro st tk data now gs alt hi hia hc hgs halt h30 h20
    obtain ⟨p, hp, hprop⟩ := hi hia
    have hg : (st.last_position.getD ⟨none, none, 0, 0⟩).ground_speed <
          TAKEOFF_SPEED_THRESHOLD ∨
        (st.last_position.getD ⟨none, none, 0, 0⟩).altitude <
          TAKEOFF_ALTITUDE_THRESHOLD := by
      rw [hp]
      exact hprop
    constructor
    · simp [process_flight_events, hc, hgs, halt, hia, h30, h20, hg]
    · simp [process_flight_events, hc, hgs, halt, hia, h30, h20, hg]

/-- Witness for C10: after a ground sample then an above-threshold sample,
the invariant holds and the takeoff fires on a concrete grounded state. -/
theorem claim_C10_witness :
    FlightInv (runState distZero "FLRDDDDDD" (initFlightState, [])
      [(0, ⟨some 0, some 0, some 55, some 9, some "Glider", none, none⟩)]).1 ∧
    ((process_flight_events distZero "FLRDDDDDD"
        ⟨some 60, some 40, some 55, some 9, some "Glider", none, none⟩ 50
        { initFlightState with
            is_airborne := some false,
            last_position := some ⟨some 55, some 9, 0, 0⟩ } []).ret = true ∧
      ∃ e, (process_flight_events distZero "FLRDDDDDD"
          ⟨some 60, some 40, some 55, some 9, some "Glider", none, none⟩ 50
          { initFlightState with
              is_airborne := some false,
              last_position := some ⟨some 55, some 9, 0, 0⟩ } []).event = some e ∧
        e.kind = EventKind.takeoff) :=
  ⟨(claim_C10 distZero "FLRDDDDDD").1 []
      [(0, ⟨some 0, some 0, some 55, some 9, some "Glider", none, none⟩)],
   (claim_C10 distZero "FLRDDDDDD").2
      { initFlightState with
          is_airborne := some false,
          last_position := some ⟨some 55, some 9, 0, 0⟩ } []
      ⟨some 60, some 40, some 55, some 9, some "Glider", none, none⟩ 50 60 40
      (by intro _; exact ⟨⟨some 55, some 9, 0, 0⟩, rfl, Or.inl (by norm_num [TAKEOFF_SPEED_THRESHOLD])⟩)
      rfl rfl rfl rfl
      (by norm_num [TAKEOFF_SPEED_THRESHOLD])
      (by norm_num [TAKEOFF_ALTITUDE_THRESHOLD])⟩

/-- Soundness of the takeoff-correlation scan: a returned partner is a
different aircraft whose record lies in the time window and within the
pairing distance. -/
theorem scanRecentTakeoffs_sound (dist : DistFn) (aid : String)
    (lat lon : Option ℚ) (g tw : Bool) (ws we : ℚ) :
    ∀ (l : List TakeoffRecord) (label partner : String),
      scanRecentTakeoffs dist aid lat lon g tw ws we l = some (label, partner) →
      partner ≠ aid ∧ ∃ r ∈ l, r.aircraft_id = partner ∧
        ws ≤ r.time ∧ r.time ≤ we ∧
        dist lat lon r.latitude r.longitude ≤ TAKEOFF_TOW_DISTANCE_THRESHOLD := by
  intro l
  induction l with
  | nil => intro label partner h; simp [scanRecentTakeoffs] at h
  | cons r rest ih =>
    intro label partner h
    rw [scanRecentTakeoffs] at h
    split at h
    · obtain ⟨hne, rr, hmem, hrest⟩ := ih label partner h
      exact ⟨hne, rr, List.mem_cons_of_mem _ hmem, hrest⟩
    · rename_i hself
      split at h
      · obtain ⟨hne, rr, hmem, hrest⟩ := ih label partner h
        exact ⟨hne, rr, List.mem_cons_of_mem _ hmem, hrest⟩
      · rename_i hwin
        have hwin' := not_not.mp hwin
        split at h
        · rename_i hd
          split at h
          · obtain ⟨hl, hp⟩ := Prod.mk.injEq .. ▸ Option.some.injEq .. ▸ h
            refine ⟨?_, r, List.mem_cons_self r rest, ?_, hwin'.1, hwin'.2, hd⟩
            · rw [← hp]; exact hself
            · exact hp
          · split at h
            · obtain ⟨hl, hp⟩ := Prod.mk.injEq .. ▸ Option.some.injEq .. ▸ h
              refine ⟨?_, r, List.mem_cons_self r rest, ?_, hwin'.1, hwin'.2, hd⟩
              · rw [← hp]; exact hself
              · exact hp
            · obtain ⟨hne, rr, hmem, hrest⟩ := ih label partner h
              exact ⟨hne, rr, List.mem_cons_of_mem _ hmem, hrest⟩
        · obtain ⟨hne, rr, hmem, hrest⟩ := ih label partner h
          exact ⟨hne, rr, List.mem_cons_of_mem _ hmem, hrest⟩

/-- The scan yields nothing when no other aircraft's record lies both in
the time window and within the pairing distance. -/
theorem scanRecentTakeoffs_none (dist : DistFn) (aid : String)
    (lat lon : Option ℚ) (g tw : Bool) (ws we : ℚ) :
    ∀ (l : List TakeoffRecord),
      (∀ r ∈ l, r.aircraft_id ≠ aid → ws ≤ r.time → r.time ≤ we →
        ¬ (dist lat lon r.latitude r.longitude ≤ TAKEOFF_TOW_DISTANCE_THRESHOLD)) →
      scanRecentTakeoffs dist aid lat lon g tw ws we l = none := by
  intro l
  induction l with
  | nil => intro _; rfl
  | cons r rest ih =>
    intro hnone
    have htail := ih fun r' hr' => hnone r' (List.mem_cons_of_mem _ hr')
    rw [scanRecentTakeoffs]
    split
    · exact htail
    · rename_i hself
      split
      · exact htail
      · rename_i hwin
        have hwin' := not_not.mp hwin
        split
        · rename_i hd
          exact absurd hd
            (hnone r (List.mem_cons_self r rest) hself hwin'.1 hwin'.2)
        · exact htail

/-- C5 (confirmed): a returned launch partner is never the aircraft
itself and always comes from a recent (< 30 s) takeoff record within
±`TOW_START_TIME_WINDOW` (5 s) of the takeoff time and within
`TAKEOFF_TOW_DISTANCE_THRESHOLD` (0.3 km); and when no other aircraft's
recent record lies in that window and distance, a glider is labeled
`winch` with no partner and a non-glider gets no label. -/
theorem claim_C5 (dist : DistFn) (aircraft_id : String) (data : Sample)
    (takeoff_time now : ℚ) (tks : List TakeoffRecord) :
    (∀ p, (detect_launch_type dist aircraft_id data takeoff_time now tks).paired_with =
        some p →
      p ≠ aircraft_id ∧ ∃ r ∈ tks, r.aircraft_id = p ∧ now - r.time < 30 ∧
        takeoff_time - TOW_START_TIME_WINDOW ≤ r.time ∧
        r.time ≤ takeoff_time + TOW_START_TIME_WINDOW ∧
        dist data.latitude data.longitude r.latitude r.longitude ≤
          TAKEOFF_TOW_DISTANCE_THRESHOLD) ∧
    ((∀ r ∈ tks, now - r.time < 30 → r.aircraft_id ≠ aircraft_id →
        takeoff_time - TOW_START_TIME_WINDOW ≤ r.time →
        r.time ≤ takeoff_time + TOW_START_TIME_WINDOW →
        ¬ (dist data.latitude data.longitude r.latitude r.longitude ≤
          TAKEOFF_TOW_DISTANCE_THRESHOLD)) →
      ((isGliderType data.aircraft_type data.aircraft_model = true →
        detect_launch_type dist aircraft_id data takeoff_time now tks =
          ⟨tks.filter fun r => decide (now - r.time < 30), some "winch", none⟩) ∧
       (isGliderType data.aircraft_type data.aircraft_model = false →
        detect_launch_type dist aircraft_id data takeoff_time now tks =
          ⟨tks.filter fun r => decide (now - r.time < 30), none, none⟩))) := by
  constructor
  · intro p hp
    unfold detect_launch_type at hp
    cases hscan : scanRecentTakeoffs dist aircraft_id data.latitude data.longitude
        (isGliderType data.aircraft_type data.aircraft_model)
        (is_tow_plane data.aircraft_type data.aircraft_model)
        (takeoff_time - TOW_START_TIME_WINDOW)
        (takeoff_time + TOW_START_TIME_WINDOW)
        (tks.filter fun r => decide (now - r.time < 30)) with
    | none =>
      rw [hscan] at hp
      by_cases hglider : isGliderType data.aircraft_type data.aircraft_model = true
      · simp [hglider] at hp
      · simp [hglider] at hp
    | some lp =>
      obtain ⟨label, partner⟩ := lp
      rw [hscan] at hp
      simp only at hp
      obtain ⟨hne, r, hmem, hid, hws, hwe, hd⟩ :=
        scanRecentTakeoffs_sound dist aircraft_id data.latitude data.longitude
          (isGliderType data.aircraft_type data.aircraft_model)
          (is_tow_plane data.aircraft_type data.aircraft_model)
          (takeoff_time - TOW_START_TIME_WINDOW)
          (takeoff_time + TOW_START_TIME_WINDOW) _ label partner hscan
      obtain ⟨hmem', hfresh⟩ := List.mem_filter.mp hmem
      have hpp : partner = p := by
        simpa using hp
      subst hpp
      exact ⟨hne, r, hmem', hid, by simpa using hfresh, hws, hwe, hd⟩
  · intro hnone
    have hscan : scanRecentTakeoffs dist aircraft_id data.latitude data.longitude
        (isGliderType data.aircraft_type data.aircraft_model)
        (is_tow_plane data.aircraft_type data.aircraft_model)
        (takeoff_time - TOW_START_TIME_WINDOW)
        (takeoff_time + TOW_START_TIME_WINDOW)
        (tks.filter fun r => decide (now - r.time < 30)) = none := by
      refine scanRecentTakeoffs_none dist aircraft_id data.latitude data.longitude
        _ _ _ _ _ fun r hr hself hws hwe => ?_
      obtain ⟨hmem, hfresh⟩ := List.mem_filter.mp hr
      exact hnone r hmem (by simpa using hfresh) hself hws hwe
    constructor
    · intro hglider
      unfold detect_launch_type
      rw [hscan]
      simp [hglider]
    · intro hglider
      unfold detect_launch_type
      rw [hscan]
      simp [hglider]

/-- Witness for C5: a lone glider (no recent takeoff records) is labeled
`winch` with no partner. -/
theorem claim_C5_witness :
    detect_launch_type distZero "FLRG00001"
        ⟨some 60, some 40, some 55, some 9, some "Glider", none, none⟩ 100 100 [] =
      ⟨[], some "winch", none⟩ :=
  ((claim_C5 distZero "FLRG00001"
      ⟨some 60, some 40, some 55, some 9, some "Glider", none, none⟩ 100 100 []).2
    (by intro r hr; simp at hr)).1 rfl

/-- C6 (code bug): nothing in the repository ever creates a winch
tracking record.  `update_winch_tracking` returns immediately for an
aircraft with no record and creates none, and `start_winch_tracking` —
the only function that creates records — is imported in
`services/ogn_client.py` but never called.  Hence even a beacon whose
takeoff the classifier labels `winch` leaves the winch table empty: at a
concrete grounded glider sample the step emits a winch-labeled takeoff,
yet the winch slot stays `none`, so no later sample can ever detect a
release.  Moreover the first conjunct shows this generically: whatever the
beacon, an absent record stays absent. -/
theorem claim_C6_bug :
    (∀ (dist : DistFn) (aircraft_id : String) (data : Sample)
        (climb_rate now : ℚ) (st : FlightState) (tk : List TakeoffRecord),
      (process_beacon_winch dist aircraft_id data climb_rate now st tk none).2 =
        (none, none)) ∧
    (process_beacon_winch distZero "FLRG00002"
        ⟨some 60, some 40, some 55, some 9, some "Glider", none, none⟩ 8 50
        { initFlightState with
            is_airborne := some false,
            last_position := some ⟨some 55, some 9, 0, 0⟩ } [] none).1.event =
      some ⟨EventKind.takeoff, some "winch", none⟩ ∧
    (process_beacon_winch distZero "FLRG00002"
        ⟨some 60, some 40, some 55, some 9, some "Glider", none, none⟩ 8 50
        { initFlightState with
            is_airborne := some false,
            last_position := some ⟨some 55, some 9, 0, 0⟩ } [] none).2 =
      (none, none) := by
  refine ⟨fun dist aircraft_id data climb_rate now st tk => rfl, ?_, rfl⟩
  have hglider : isGliderType (some "Glider") none = true := by decide
  have hfilter : ([⟨"FLRG00002", 50, some 55, some 9, some "Glider", none⟩] :
      List TakeoffRecord).filter (fun r => decide ((50:ℚ) - r.time < 30)) =
      [⟨"FLRG00002", 50, some 55, some 9, some "Glider", none⟩] := by
    norm_num [List.filter]
  have hscan : scanRecentTakeoffs distZero "FLRG00002" (some 55) (some 9)
      (isGliderType (some "Glider") none) (is_tow_plane (some "Glider") none)
      (50 - TOW_START_TIME_WINDOW) (50 + TOW_START_TIME_WINDOW)
      [⟨"FLRG00002", 50, some 55, some 9, some "Glider", none⟩] = none := by
    rw [scanRecentTakeoffs]
    simp [scanRecentTakeoffs]
  have hdetect : detect_launch_type distZero "FLRG00002"
      ⟨some 60, some 40, some 55, some 9, some "Glider", none, none⟩ 50 50
      [⟨"FLRG00002", 50, some 55, some 9, some "Glider", none⟩] =
      ⟨[⟨"FLRG00002", 50, some 55, some 9, some "Glider", none⟩],
        some "winch", none⟩ := by
    unfold detect_launch_type
    rw [hfilter, hscan, hglider]
    simp
  simp only [process_beacon_winch]
  rw [show (process_flight_events distZero "FLRG00002"
      ⟨some 60, some 40, some 55, some 9, some "Glider", none, none⟩ 50
      { initFlightState with
          is_airborne := some false,
          last_position := some ⟨some 55, some 9, 0, 0⟩ } []).event =
    some ⟨EventKind.takeoff,
      (detect_launch_type distZero "FLRG00002"
        ⟨some 60, some 40, some 55, some 9, some "Glider", none, none⟩ 50 50
        [⟨"FLRG00002", 50, some 55, some 9, some "Glider", none⟩]).start_type,
      (detect_launch_type distZero "FLRG00002"
        ⟨some 60, some 40, some 55, some 9, some "Glider", none, none⟩ 50 50
        [⟨"FLRG00002", 50, some 55, some 9, some "Glider", none⟩]).paired_with⟩
    from by
      norm_num [process_flight_events, inCooldown, initFlightState,
        TAKEOFF_SPEED_THRESHOLD, TAKEOFF_ALTITUDE_THRESHOLD]]
  rw [hdetect]

/-- The nearest-airfield accumulator only ever holds the name/icao of an
airfield from the scanned list (or the initial accumulator). -/
theorem scanAirfields_mem (dist : DistFn) (lat lon : ℚ) :
    ∀ (l : List Airfield) (acc : Option (Option String × Option String × ℚ))
      (nm ic : Option String) (d : ℚ),
      scanAirfields dist lat lon l acc = some (nm, ic, d) →
      (∃ af ∈ l, af.name = nm ∧ af.icao = ic) ∨ acc = some (nm, ic, d) := by
  intro l
  induction l with
  | nil => intro acc nm ic d h; right; exact h
  | cons af rest ih =>
    intro acc nm ic d h
    rw [scanAirfields] at h
    cases hla : af.latitude_deg with
    | none =>
      rw [hla] at h
      rcases ih _ _ _ _ h with ⟨af', hmem, hrest⟩ | heq
      · exact Or.inl ⟨af', List.mem_cons_of_mem _ hmem, hrest⟩
      · exact Or.inr heq
    | some alat =>
      cases hlo : af.longitude_deg with
      | none =>
        rw [hla, hlo] at h
        rcases ih _ _ _ _ h with ⟨af', hmem, hrest⟩ | heq
        · exact Or.inl ⟨af', List.mem_cons_of_mem _ hmem, hrest⟩
        · exact Or.inr heq
      | some alon =>
        rw [hla, hlo] at h
        simp only at h
        rcases ih _ _ _ _ h with ⟨af', hmem, hrest⟩ | heq
        · exact Or.inl ⟨af', List.mem_cons_of_mem _ hmem, hrest⟩
        · split at heq
          · simp only [Option.some.injEq, Prod.mk.injEq] at heq
            obtain ⟨hn, hic, _⟩ := heq
            exact Or.inl ⟨af, List.mem_cons_self af rest, hn, hic⟩
          · exact Or.inr heq

/-- If the geotagging step produced an ICAO, the coordinates were present
and the scan found a nearest airfield within 5 km, not named `UNKNOWN`,
carrying exactly that ICAO. -/
theorem geotag_second_some (dist : DistFn) (afs : List Airfield)
    (ev : FlightEvent) (lat lon : Option ℚ) (c : String)
    (h : (geotag_event dist afs ev lat lon).2 = some c) :
    ∃ la lo nm d, lat = some la ∧ lon = some lo ∧
      scanAirfields dist la lo afs none = some (nm, some c, d) ∧ d ≤ 5 ∧
      nm ≠ some "UNKNOWN" := by
  cases lat with
  | none => simp [geotag_event] at h
  | some la =>
    cases lon with
    | none => simp [geotag_event] at h
    | some lo =>
      cases hscan : scanAirfields dist la lo afs none with
      | none =>
        have hg : geotag_event dist afs ev (some la) (some lo) = (ev, none) := by
          simp [geotag_event, find_nearest_airfield, hscan]
        rw [hg] at h
        simp at h
      | some triple =>
        obtain ⟨nm, ic, d⟩ := triple
        by_cases hd : 5 < d
        · have hg : (geotag_event dist afs ev (some la) (some lo)).2 = none := by
            simp [geotag_event, find_nearest_airfield, hscan, hd]
          rw [hg] at h
          exact absurd h (by simp)
        · by_cases hnm : nm ≠ some "UNKNOWN"
          · have hg : (geotag_event dist afs ev (some la) (some lo)).2 = ic := by
              simp [geotag_event, find_nearest_airfield, hscan, hd, hnm]
            rw [hg] at h
            exact ⟨la, lo, nm, d, rfl, rfl, by rw [hscan, h], not_lt.mp hd, hnm⟩
          · have hnm' : nm = some "UNKNOWN" := not_not.mp hnm
            have hg : (geotag_event dist afs ev (some la) (some lo)).2 = none := by
              simp [geotag_event, find_nearest_airfield, hscan, hd, hnm']
            rw [hg] at h
            exact absurd h (by simp)

/-- When the scan finds a nearest airfield within 5 km not named
`UNKNOWN`, geotagging stamps its name and ICAO onto the event. -/
theorem geotag_of_scan_close (dist : DistFn) (afs : List Airfield)
    (ev : FlightEvent) (la lo : ℚ) (nm ic : Option String) (d : ℚ)
    (hscan : scanAirfields dist la lo afs none = some (nm, ic, d))
    (hd : ¬ (5 < d)) (hnm : nm ≠ some "UNKNOWN") :
    geotag_event dist afs ev (some la) (some lo) =
      ({ ev with airfield := nm, airfield_icao := ic }, ic) := by
  simp [geotag_event, find_nearest_airfield, hscan, hd, hnm]

/-- When the nearest airfield is more than 5 km away, the event is
geotagged `UNKNOWN` and carries the raw coordinates, and no ICAO is
produced. -/
theorem geotag_of_scan_far (dist : DistFn) (afs : List Airfield)
    (ev : FlightEvent) (la lo : ℚ) (nm ic : Option String) (d : ℚ)
    (hscan : scanAirfields dist la lo afs none = some (nm, ic, d))
    (hd : 5 < d) :
    geotag_event dist afs ev (some la) (some lo) =
      ({ ev with
          airfield := some "UNKNOWN",
          latitude := some la,
          longitude := some lo }, none) := by
  simp [geotag_event, find_nearest_airfield, hscan, hd]

/-- C8 (confirmed): `log_event` stores and webhooks an event exactly when
the sample's coordinates are present and the nearest-airfield scan yields
an airfield within 5 km whose (non-empty) ICAO code is a registered
homefield; an event whose nearest airfield lies beyond 5 km is geotagged
`UNKNOWN` with the raw coordinates; and every dropped event yields
`(none, none)` — no store and no webhook.  The hypothesis rules out an
airfield literally named `UNKNOWN`, which would collide with the
sentinel. -/
theorem claim_C8 (dist : DistFn) (afs : List Airfield)
    (registered : String → Bool) (event_type aircraft_id : String)
    (data : Sample) (st pw : Option String) (now : ℚ)
    (h1 : ∀ af ∈ afs, af.name ≠ some "UNKNOWN") :
    ((log_event dist afs registered true event_type aircraft_id data st pw now).1.isSome =
        true ↔
      ∃ la lo nm d c, data.latitude = some la ∧ data.longitude = some lo ∧
        scanAirfields dist la lo afs none = some (nm, some c, d) ∧ d ≤ 5 ∧
        c ≠ "" ∧ registered c = true) ∧
    ((log_event dist afs registered true event_type aircraft_id data st pw now).2.isSome =
        true ↔
      ∃ la lo nm d c, data.latitude = some la ∧ data.longitude = some lo ∧
        scanAirfields dist la lo afs none = some (nm, some c, d) ∧ d ≤ 5 ∧
        c ≠ "" ∧ registered c = true) ∧
    ((log_event dist afs registered true event_type aircraft_id data st pw now).1 = none →
      log_event dist afs registered true event_type aircraft_id data st pw now =
        (none, none)) ∧
    (∀ (ev : FlightEvent) (la lo : ℚ) (nm ic : Option String) (d : ℚ),
      scanAirfields dist la lo afs none = some (nm, ic, d) → 5 < d →
      geotag_event dist afs ev (some la) (some lo) =
        ({ ev with
            airfield := some "UNKNOWN",
            latitude := some la,
            longitude := some lo }, none)) := by
  have hdet : ∀ c, (geotag_event dist afs (base_event event_type aircraft_id now)
        data.latitude data.longitude).2 = some c →
      ∀ la lo nm d c', data.latitude = some la → data.longitude = some lo →
        scanAirfields dist la lo afs none = some (nm, some c', d) → c' = c := by
    intro c hgeo la lo nm d c' hla hlo hscan
    obtain ⟨la0, lo0, nm0, d0, hla0, hlo0, hscan0, hd0, hnm0⟩ :=
      geotag_second_some dist afs _ data.latitude data.longitude c hgeo
    rw [hla] at hla0
    injection hla0 with hla'
    subst hla'
    rw [hlo] at hlo0
    injection hlo0 with hlo'
    subst hlo'
    rw [hscan] at hscan0
    simp only [Option.some.injEq, Prod.mk.injEq] at hscan0
    exact hscan0.2.1
  have hmain :
      (log_event dist afs registered true event_type aircraft_id data st pw now =
          (none, none) ∧
        ¬ (∃ la lo nm d c, data.latitude = some la ∧ data.longitude = some lo ∧
          scanAirfields dist la lo afs none = some (nm, some c, d) ∧ d ≤ 5 ∧
          c ≠ "" ∧ registered c = true)) ∨
      (((log_event dist afs registered true event_type aircraft_id data st pw now).1.isSome =
          true ∧
        (log_event dist afs registered true event_type aircraft_id data st pw now).2.isSome =
          true) ∧
        (∃ la lo nm d c, data.latitude = some la ∧ data.longitude = some lo ∧
          scanAirfields dist la lo afs none = some (nm, some c, d) ∧ d ≤ 5 ∧
          c ≠ "" ∧ registered c = true)) := by
    cases hgeo : (geotag_event dist afs (base_event event_type aircraft_id now)
        data.latitude data.longitude).2 with
    | none =>
      left
      refine ⟨by simp [log_event, hgeo], ?_⟩
      rintro ⟨la, lo, nm, d, c, hla, hlo, hscan, hd, hce, hreg⟩
      have hnm : nm ≠ some "UNKNOWN" := by
        rcases scanAirfields_mem dist la lo afs none nm (some c) d hscan with
          ⟨af, hmem, hn, _⟩ | habs
        · rw [← hn]; exact h1 af hmem
        · exact absurd habs (by simp)
      have hg2 : (geotag_event dist afs (base_event event_type aircraft_id now)
          data.latitude data.longitude).2 = some c := by
        rw [hla, hlo,
          geotag_of_scan_close dist afs _ la lo nm (some c) d hscan (not_lt.mpr hd) hnm]
      rw [hgeo] at hg2
      exact absurd hg2 (by simp)
    | some c =>
      by_cases hce : c = ""
      · subst hce
        left
        refine ⟨by simp [log_event, hgeo], ?_⟩
        rintro ⟨la, lo, nm, d, c', hla, hlo, hscan, hd, hce', hreg'⟩
        exact hce' (hdet "" hgeo la lo nm d c' hla hlo hscan)
      · by_cases hreg : registered c = true
        · right
          refine ⟨⟨by simp [log_event, hgeo, hce, hreg],
            by simp [log_event, hgeo, hce, hreg, send_webhook]⟩, ?_⟩
          obtain ⟨la, lo, nm, d, hla, hlo, hscan, hd, hnm⟩ :=
            geotag_second_some dist afs _ data.latitude data.longitude c hgeo
          exact ⟨la, lo, nm, d, c, hla, hlo, hscan, hd, hce, hreg⟩
        · have hreg' : registered c = false := by
            cases h : registered c
            · rfl
            · exact absurd h hreg
          left
          refine ⟨by simp [log_event, hgeo, hce, hreg'], ?_⟩
          rintro ⟨la, lo, nm, d, c', hla, hlo, hscan, hd, hce', hregc'⟩
          have hcc : c' = c := hdet c hgeo la lo nm d c' hla hlo hscan
          rw [hcc] at hregc'
          rw [hregc'] at hreg'
          exact Bool.true_eq_false ▸ hreg' ▸ rfl
  refine ⟨?_, ?_, ?_, fun ev la lo nm ic d hscan hd =>
    geotag_of_scan_far dist afs ev la lo nm ic d hscan hd⟩
  · rcases hmain with ⟨hlog, hnR⟩ | ⟨⟨hs1, _⟩, hR⟩
    · constructor
      · intro hs
        rw [hlog] at hs
        exact absurd hs (by simp)
      · intro hR'
        exact absurd hR' hnR
    · exact ⟨fun _ => hR, fun _ => hs1⟩
  · rcases hmain with ⟨hlog, hnR⟩ | ⟨⟨_, hs2⟩, hR⟩
    · constructor
      · intro hs
        rw [hlog] at hs
        exact absurd hs (by simp)
      · intro hR'
        exact absurd hR' hnR
    · exact ⟨fun _ => hR, fun _ => hs2⟩
  · rcases hmain with ⟨hlog, _⟩ | ⟨⟨hs1, _⟩, _⟩
    · intro _
      exact hlog
    · intro hnone
      rw [hnone] at hs1
      exact absurd hs1 (by simp)

/-- Witness for C8: one airfield (name `Kongsted`, ICAO `EKFS`) 1 km away
with `EKFS` registered — the event is stored and webhooked. -/
theorem claim_C8_witness :
    (log_event distOne [⟨some 55, some 9, some "Kongsted", some "EKFS"⟩]
        (fun c => c == "EKFS") true "takeoff" "FLRE00001"
        ⟨some 60, some 40, some 55, some 9, some "Glider", none, none⟩
        none none 0).1.isSome = true :=
  ((claim_C8 distOne [⟨some 55, some 9, some "Kongsted", some "EKFS"⟩]
      (fun c => c == "EKFS") "takeoff" "FLRE00001"
      ⟨some 60, some 40, some 55, some 9, some "Glider", none, none⟩
      none none 0
      (by intro af haf; rw [List.mem_singleton] at haf; subst haf; simp)).1).mpr
    ⟨55, 9, some "Kongsted", 1, "EKFS", rfl, rfl,
      by simp [scanAirfields, distOne],
      by norm_num, by simp, by simp⟩

/-- An aircraft absent from the table produces no removal message when
the table is cleared. -/
theorem removal_count_zero (i : String) :
    ∀ (l : List (String × NormAc)), i ∉ l.map Prod.fst →
      (l.map fun p => AdsbMsg.remove p.1 p.2.hex).filter (isRemovalFor i) = [] := by
  intro l
  induction l with
  | nil => intro _; rfl
  | cons p rest ih =>
    intro hnotin
    simp only [List.map_cons, List.mem_cons, not_or] at hnotin
    obtain ⟨hne, hnotin'⟩ := hnotin
    rw [List.map_cons, List.filter_cons]
    have hfalse : isRemovalFor i (AdsbMsg.remove p.1 p.2.hex) = false := by
      simp [isRemovalFor]
      intro hc
      exact hne hc.symm
    rw [hfalse]
    simp only [Bool.false_eq_true, if_false]
    exact ih hnotin'

/-- Clearing a table with pairwise-distinct keys enqueues exactly one
removal message per tracked aircraft. -/
theorem removal_count_one (i : String) :
    ∀ (l : List (String × NormAc)), (l.map Prod.fst).Nodup →
      i ∈ l.map Prod.fst →
      ((l.map fun p => AdsbMsg.remove p.1 p.2.hex).filter (isRemovalFor i)).length = 1 := by
  intro l
  induction l with
  | nil => intro _ hmem; simp at hmem
  | cons p rest ih =>
    intro hnd hmem
    simp only [List.map_cons, List.nodup_cons] at hnd
    obtain ⟨hnotin, hnd'⟩ := hnd
    rw [List.map_cons, List.filter_cons]
    by_cases hpi : p.1 = i
    · have htrue : isRemovalFor i (AdsbMsg.remove p.1 p.2.hex) = true := by
        simp [isRemovalFor, hpi]
      rw [htrue]
      simp only [if_true]
      rw [removal_count_zero i rest (by rw [← hpi]; exact hnotin)]
      rfl
    · have hfalse : isRemovalFor i (AdsbMsg.remove p.1 p.2.hex) = false := by
        simp [isRemovalFor]
        intro hc
        exact hpi hc
      rw [hfalse]
      simp only [Bool.false_eq_true, if_false]
      rw [List.map_cons] at hmem
      rcases List.mem_cons.mp hmem with heq | hmem'
      · exact absurd heq.symm hpi
      · exact ih hnd' hmem'

/-- C9 (confirmed): on the tick at which the subscriber count drops to
zero (`last_had_clients` true, count 0), the poller enqueues exactly one
removal message per tracked secondary-source aircraft (given the table's
keys are distinct, as for a Python dict), the live-state table becomes
empty, and no fetch happens on this or any further tick while the count
stays zero. -/
theorem claim_C9 (st : AdsbState) (fetchResult : Option (List NormAc))
    (now : ℚ) (h : st.lastHadClients = true) :
    (adsb_tick st (some 0) fetchResult now).1.data = [] ∧
    (adsb_tick st (some 0) fetchResult now).2 = false ∧
    (adsb_tick st (some 0) fetchResult now).1.queue =
      st.queue ++ st.data.map (fun p => AdsbMsg.remove p.1 p.2.hex) ∧
    ((st.data.map Prod.fst).Nodup →
      ∀ i ∈ st.data.map Prod.fst,
        ((st.data.map fun p => AdsbMsg.remove p.1 p.2.hex).filter
          (isRemovalFor i)).length = 1) ∧
    (∀ (st' : AdsbState) (fr' : Option (List NormAc)) (now' : ℚ),
      (adsb_tick st' (some 0) fr' now').2 = false) := by
  refine ⟨?_, ?_, ?_, fun hnd i hmem => removal_count_one i st.data hnd hmem,
    fun st' fr' now' => ?_⟩
  · simp [adsb_tick, clear_aircraft_data, h]
  · simp [adsb_tick, h]
  · simp [adsb_tick, clear_aircraft_data, h]
  · simp [adsb_tick]

/-- Witness for C9: a concrete two-aircraft table on the 1→0 transition
empties and enqueues the two removals. -/
theorem claim_C9_witness :
    (adsb_tick
      ⟨[("adsb_AAA111", ⟨some "adsb_AAA111", some "AAA111", none, none, 0, "p"⟩),
        ("adsb_BBB222", ⟨some "adsb_BBB222", some "BBB222", none, none, 0, "q"⟩)],
        [], true, 0⟩ (some 0) none 5).1.data = [] ∧
    (adsb_tick
      ⟨[("adsb_AAA111", ⟨some "adsb_AAA111", some "AAA111", none, none, 0, "p"⟩),
        ("adsb_BBB222", ⟨some "adsb_BBB222", some "BBB222", none, none, 0, "q"⟩)],
        [], true, 0⟩ (some 0) none 5).2 = false ∧
    (adsb_tick
      ⟨[("adsb_AAA111", ⟨some "adsb_AAA111", some "AAA111", none, none, 0, "p"⟩),
        ("adsb_BBB222", ⟨some "adsb_BBB222", some "BBB222", none, none, 0, "q"⟩)],
        [], true, 0⟩ (some 0) none 5).1.queue =
      [] ++ [("adsb_AAA111",
          (⟨some "adsb_AAA111", some "AAA111", none, none, 0, "p"⟩ : NormAc)),
        ("adsb_BBB222",
          (⟨some "adsb_BBB222", some "BBB222", none, none, 0, "q"⟩ : NormAc))].map
        (fun p => AdsbMsg.remove p.1 p.2.hex) := by
  have h := claim_C9
    ⟨[("adsb_AAA111", ⟨some "adsb_AAA111", some "AAA111", none, none, 0, "p"⟩),
      ("adsb_BBB222", ⟨some "adsb_BBB222", some "BBB222", none, none, 0, "q"⟩)],
      [], true, 0⟩ none 5 rfl
  exact ⟨h.1, h.2.1, h.2.2.1⟩

end SG
